import Mathlib

/-!
Verification of the query / date-range / formatting core of a Logseq MCP
tool server (src/index.ts).  The TypeScript source is shallowly embedded:
JavaScript strings are Lean `String`s manipulated through their character
lists, JavaScript `Date` values are civil calendar fields plus a
millisecond-of-day, fallible remote calls are `Except`, and each tool
handler fragment is an explicit function from its inputs (including the
abstract remote responses) to the produced API-call trace and text.
-/

namespace Logseq

/-! ## JavaScript string primitives

Kernel-computable counterparts of the JavaScript string operations used by
the source, working on the character list of a `String`. -/

/-- JavaScript `s.toLowerCase()` (ASCII case mapping, which covers every
string the source compares against). -/
def toLowerJs (s : String) : String := ⟨s.data.map Char.toLower⟩

/-- JavaScript `s.trim()`: strip leading and trailing whitespace. -/
def trimJs (s : String) : String :=
  ⟨((s.data.dropWhile Char.isWhitespace).reverse.dropWhile Char.isWhitespace).reverse⟩

/-- JavaScript `s.substring(0, n)` / `s.slice(0, n)` for `n ≥ 0`:
the first `n` characters (the whole string when it is shorter). -/
def strTake (n : Nat) (s : String) : String := ⟨s.data.take n⟩

/-- Auxiliary for `splitOnChar`. -/
def splitOnCharAux (c : Char) : List Char → List Char → List String
  | [], acc => [⟨acc.reverse⟩]
  | x :: xs, acc =>
      if x = c then ⟨acc.reverse⟩ :: splitOnCharAux c xs []
      else splitOnCharAux c xs (x :: acc)

/-- JavaScript `s.split(sep)` for a one-character separator
(the source only splits on a newline). -/
def splitOnChar (c : Char) (s : String) : List String := splitOnCharAux c s.data []

/-- JavaScript string repetition, as in the two-space indent repeat. -/
def repeatStr (s : String) (n : Nat) : String := String.join (List.replicate n s)

/-- JavaScript `array.join(sep)`. -/
def joinWith (sep : String) : List String → String
  | [] => ""
  | [s] => s
  | s :: rest => s ++ sep ++ joinWith sep rest

/-! ## JavaScript Date model

A `Date` is modelled by civil fields (`year`, 0-based `month`,
day-of-month `day`) plus the milliseconds elapsed since local midnight.
The fields may be denormalised (e.g. `day = 0` after `setDate(0)`);
the instant they denote is fixed by `toDays`, which performs the same
normalisation JavaScript applies when it recomputes the internal time
value from the fields. -/

structure JSDate where
  year : Int
  month : Int
  day : Int
  msOfDay : Int
deriving Repr, DecidableEq

/-- Gregorian leap year, as in the proleptic calendar used by JavaScript. -/
def isLeap (y : Int) : Prop := (y % 4 = 0 ∧ y % 100 ≠ 0) ∨ y % 400 = 0

instance (y : Int) : Decidable (isLeap y) := by unfold isLeap; infer_instance

/-- Cumulative days before 0-based month `m` in a non-leap year
(`m` is expected in `[0, 11]`). -/
def cumDaysBefore (m : Int) : Int :=
  if m = 0 then 0 else if m = 1 then 31 else if m = 2 then 59 else if m = 3 then 90
  else if m = 4 then 120 else if m = 5 then 151 else if m = 6 then 181 else if m = 7 then 212
  else if m = 8 then 243 else if m = 9 then 273 else if m = 10 then 304 else 334

/-- Number of leap years with year number in `[1, y-1]`. -/
def leapsBefore (y : Int) : Int := (y - 1) / 4 - (y - 1) / 100 + (y - 1) / 400

/-- Length of 0-based month `m` of year `y`. -/
def monthLength (y m : Int) : Int :=
  if m = 1 then (if isLeap y then 29 else 28)
  else if m = 3 ∨ m = 5 ∨ m = 8 ∨ m = 10 then 30 else 31

/-- Day count of civil field triple `(y, m, d)` from a fixed reference,
normalising an out-of-range month into the year (as JavaScript `MakeDay`
does) and treating the day linearly, so that `day = 0` denotes the last
day of the previous month, etc. -/
def toDaysAux (y m d : Int) : Int :=
  365 * (y + m / 12) + leapsBefore (y + m / 12) + cumDaysBefore (m % 12) +
    (if 2 ≤ m % 12 ∧ isLeap (y + m / 12) then 1 else 0) + (d - 1)

/-- Days since the Unix epoch 1970-01-01 of the instant denoted by civil
fields `(y, m, d)`. -/
def toDays (y m d : Int) : Int := toDaysAux y m d - toDaysAux 1970 0 1

/-- The instant a `JSDate` denotes, in milliseconds since the epoch. -/
def instant (d : JSDate) : Int := toDays d.year d.month d.day * 86400000 + d.msOfDay

/-- JavaScript `date.setHours(h, mi, s, ms)` (returning the updated date). -/
def JSDate.setHours (d : JSDate) (h mi s ms : Int) : JSDate :=
  { d with msOfDay := h * 3600000 + mi * 60000 + s * 1000 + ms }

/-- JavaScript `date.setDate(n)`: set the day-of-month field; the denoted
instant is recomputed from the current year/month fields, with out-of-range
days rolling into adjacent months (handled by `toDays`). -/
def JSDate.setDate (d : JSDate) (n : Int) : JSDate := { d with day := n }

/-- JavaScript `date.setMonth(m, day)`: set month and day fields; month
normalisation into the year is handled by `toDays`. -/
def JSDate.setMonth (d : JSDate) (m day : Int) : JSDate :=
  { d with month := m, day := day }

/-- JavaScript `date.getDate()`.  Valid when the `day` field lies inside
the (normalised) month, which holds at every call site in the source. -/
def JSDate.getDate (d : JSDate) : Int := d.day

/-- JavaScript `date.getMonth()` (0-based), normalising the month field. -/
def JSDate.getMonth (d : JSDate) : Int := d.month % 12

/-- JavaScript `date.getFullYear()`, normalising the month field. -/
def JSDate.getFullYear (d : JSDate) : Int := d.year + d.month / 12

/-- JavaScript `date.getDay()`: day of week, 0 = Sunday.
1970-01-01 was a Thursday (= 4). -/
def JSDate.getDay (d : JSDate) : Int := (toDays d.year d.month d.day + 4) % 7

/-- A `JSDate` whose fields are normalised: what `new Date()` for the
current instant always yields. -/
def JSDate.Valid (d : JSDate) : Prop :=
  0 ≤ d.month ∧ d.month ≤ 11 ∧ 1 ≤ d.day ∧ d.day ≤ monthLength d.year d.month ∧
    0 ≤ d.msOfDay ∧ d.msOfDay < 86400000

instance (d : JSDate) : Decidable d.Valid := by unfold JSDate.Valid; infer_instance

/-- English month name of 0-based month `m`, as
the long month format of the en-US locale. -/
def monthLongName (m : Int) : String :=
  if m = 0 then "January" else if m = 1 then "February" else if m = 2 then "March"
  else if m = 3 then "April" else if m = 4 then "May" else if m = 5 then "June"
  else if m = 6 then "July" else if m = 7 then "August" else if m = 8 then "September"
  else if m = 9 then "October" else if m = 10 then "November" else "December"

/-- Lower-cased English short month name of 0-based month `m`, as
the short month format of the en-US locale, lower-cased. -/
def monthShortLower (m : Int) : String :=
  if m = 0 then "jan" else if m = 1 then "feb" else if m = 2 then "mar"
  else if m = 3 then "apr" else if m = 4 then "may" else if m = 5 then "jun"
  else if m = 6 then "jul" else if m = 7 then "aug" else if m = 8 then "sep"
  else if m = 9 then "oct" else if m = 10 then "nov" else "dec"

/-! ## Date Range Resolver (`parseDateRange`, src/index.ts lines 77-129) -/

structure DateRange where
  start : JSDate
  end_ : JSDate
  title : String
deriving Repr, DecidableEq

/-- The own-key dispatch of `parseDateRange`: the eight closures stored in
the `ranges` object literal, with the final `else` giving the "default to
this week" branch.  The bracket lookup in the source also reaches the
inherited members of `Object.prototype`; `parseDateRangeJs` below composes
this dispatch with those prototype-chain hits and is the complete embedding
of the function. -/
def parseDateRange (dateRange : String) (today : JSDate) : DateRange :=
  if trimJs (toLowerJs dateRange) = "today" then
    { start := today.setHours 0 0 0 0,
      end_ := today.setHours 23 59 59 999,
      title := "Today\x27s Journal" }
  else if trimJs (toLowerJs dateRange) = "yesterday" then
    { start := (today.setDate (today.getDate - 1)).setHours 0 0 0 0,
      end_ := (today.setHours 23 59 59 999).setDate (today.getDate - 1),
      title := "Yesterday\x27s Journal" }
  else if trimJs (toLowerJs dateRange) = "this week" then
    { start := (today.setDate (today.getDate - today.getDay)).setHours 0 0 0 0,
      end_ := today.setHours 23 59 59 999,
      title := "This Week\x27s Journal" }
  else if trimJs (toLowerJs dateRange) = "last week" then
    { start := (today.setDate (today.getDate - today.getDay - 7)).setHours 0 0 0 0,
      end_ := ((today.setHours 23 59 59 999).setDate (today.getDate - today.getDay - 1)).setHours 23 59 59 999,
      title := "Last Week\x27s Journal" }
  else if trimJs (toLowerJs dateRange) = "this month" then
    { start := (today.setDate 1).setHours 0 0 0 0,
      end_ := today.setHours 23 59 59 999,
      title := "Journal for " ++ monthLongName today.getMonth ++ " " ++ toString today.getFullYear }
  else if trimJs (toLowerJs dateRange) = "last month" then
    { start := (today.setMonth (today.getMonth - 1) 1).setHours 0 0 0 0,
      end_ := (today.setHours 23 59 59 999).setDate 0,
      title := "Journal for " ++
        monthLongName ((today.setMonth (today.getMonth - 1) 1).setHours 0 0 0 0).getMonth ++ " " ++
        toString ((today.setMonth (today.getMonth - 1) 1).setHours 0 0 0 0).getFullYear }
  else if trimJs (toLowerJs dateRange) = "last 7 days" then
    { start := (today.setDate (today.getDate - 7)).setHours 0 0 0 0,
      end_ := today.setHours 23 59 59 999,
      title := "Last 7 Days Journal" }
  else if trimJs (toLowerJs dateRange) = "last 30 days" then
    { start := (today.setDate (today.getDate - 30)).setHours 0 0 0 0,
      end_ := today.setHours 23 59 59 999,
      title := "Last 30 Days Journal" }
  else
    { start := (today.setDate (today.getDate - today.getDay)).setHours 0 0 0 0,
      end_ := today.setHours 23 59 59 999,
      title := "Weekly Journal" }

/-- The eight phrases the resolver recognises (after lowercasing/trimming). -/
def recognizedDatePhrases : List String :=
  ["today", "yesterday", "this week", "last week",
   "this month", "last month", "last 7 days", "last 30 days"]

/-- The `Object.prototype` member names (ECMA-262, Annex B included, as
implemented by Node) whose inherited value is truthy and which, when looked
up on a plain object literal and called with no arguments, run without
throwing and without mutating anything. -/
def objectProtoNoopKeys : List String :=
  ["constructor", "toString", "toLocaleString", "valueOf", "hasOwnProperty",
   "isPrototypeOf", "propertyIsEnumerable", "__lookupGetter__", "__lookupSetter__"]

/-- The `Object.prototype` member names whose inherited value is truthy but
for which the call `ranges[key]()` throws a TypeError: `__proto__` reads as
`Object.prototype`, which is not callable, and `__defineGetter__` /
`__defineSetter__` reject their undefined getter/setter argument. -/
def objectProtoThrowKeys : List String :=
  ["__proto__", "__defineGetter__", "__defineSetter__"]

instance {ε α : Type} [DecidableEq ε] [DecidableEq α] : DecidableEq (Except ε α) :=
  fun x y =>
    match x, y with
    | .ok a, .ok b =>
        if h : a = b then isTrue (h ▸ rfl) else isFalse (fun hh => h (Except.ok.inj hh))
    | .error a, .error b =>
        if h : a = b then isTrue (h ▸ rfl) else isFalse (fun hh => h (Except.error.inj hh))
    | .ok _, .error _ => isFalse (fun hh => Except.noConfusion hh)
    | .error _, .ok _ => isFalse (fun hh => Except.noConfusion hh)

/-- Complete embedding of `parseDateRange`, including the JavaScript
prototype-chain semantics of the `ranges[normalizedRange]` lookup: an own
key runs its closure; an inherited `Object.prototype` member is truthy, so
the code calls it instead of taking the fallback — the no-op members leave
the defaults in place (start = now, end = end of today, empty title), the
others make the call throw (modelled as `Except.error`, the message text of
the TypeError not being modelled); only a lookup miss reaches the
"default to this week" branch. -/
def parseDateRangeJs (dateRange : String) (today : JSDate) : Except String DateRange :=
  if trimJs (toLowerJs dateRange) ∈ recognizedDatePhrases then
    Except.ok (parseDateRange dateRange today)
  else if trimJs (toLowerJs dateRange) ∈ objectProtoNoopKeys then
    Except.ok { start := today, end_ := today.setHours 23 59 59 999, title := "" }
  else if trimJs (toLowerJs dateRange) ∈ objectProtoThrowKeys then
    Except.error "TypeError"
  else
    Except.ok (parseDateRange dateRange today)

/-- The title table of spec §4.2, read off the spec text, to compare with
the titles the implementation produces. -/
def specExpectedTitle (phrase : String) (today : JSDate) : String :=
  if phrase = "today" then "Today\x27s Journal"
  else if phrase = "yesterday" then "Yesterday\x27s Journal"
  else if phrase = "this week" then "This Week\x27s Journal"
  else if phrase = "last week" then "Last Week\x27s Journal"
  else if phrase = "this month" then
    "Journal for " ++ monthLongName today.getMonth ++ " " ++ toString today.getFullYear
  else if phrase = "last month" then
    "Journal for " ++
      monthLongName (if today.getMonth = 0 then 11 else today.getMonth - 1) ++ " " ++
      toString (if today.getMonth = 0 then today.getFullYear - 1 else today.getFullYear)
  else if phrase = "last 7 days" then "Last 7 Days Journal"
  else if phrase = "last 30 days" then "Last 30 Days Journal"
  else "Weekly Journal"

/-! ## Block trees and `processBlocks` (src/index.ts lines 63-75) -/

/-- A Logseq block: textual content plus ordered children. -/
inductive Block where
  | mk (content : String) (children : List Block)

def Block.content : Block → String
  | .mk c _ => c

def Block.children : Block → List Block
  | .mk _ cs => cs

/-- Embedding of `processBlocks`: a bullet is emitted only when
`block.content` is truthy (non-empty), and the recursion into
`block.children` happens inside that same truthiness guard. -/
def processBlocks : List Block → Nat → String
  | [], _ => ""
  | Block.mk c cs :: rest, indent =>
      (if c ≠ "" then
        repeatStr "  " indent ++ "- " ++ c ++ "\n" ++
          (if 0 < cs.length then processBlocks cs (indent + 1) else "")
       else "") ++ processBlocks rest indent

/-- Concatenation of a list of strings (spec-side rendering helper). -/
def concatStrs : List String → String
  | [] => ""
  | s :: rest => s ++ concatStrs rest

/-- Spec-side flattening of a block forest into `(depth, content)` lines in
depth-first pre-order; a node with empty content contributes nothing and its
subtree is skipped (which is what the code does). -/
def flattenBlocks : List Block → Nat → List (Nat × String)
  | [], _ => []
  | Block.mk c cs :: rest, indent =>
      (if c ≠ "" then (indent, c) :: flattenBlocks cs (indent + 1) else []) ++
        flattenBlocks rest indent

/-! ## Query Builder (`buildDatalogQuery`, src/index.ts lines 131-166) -/

/-- The parameter bag passed to the query builder; absent JavaScript fields
are `none`. -/
structure QueryParams where
  property : Option String := none
  value : Option String := none
  text : Option String := none
  tag : Option String := none
  page : Option String := none
  days : Option Int := none
  custom : Option String := none
deriving Repr, DecidableEq

/-- JavaScript template interpolation of a possibly-undefined value:
an absent field prints as "undefined". -/
def jsInterp (o : Option String) : String := o.getD "undefined"

/-- JavaScript `params.x?.toLowerCase()` under template interpolation. -/
def jsInterpLower (o : Option String) : String :=
  match o with
  | some s => toLowerJs s
  | none => "undefined"

/-- JavaScript `params.days || 7` (0 is falsy). -/
def daysOrSeven (o : Option Int) : Int :=
  match o with
  | some v => if v = 0 then 7 else v
  | none => 7

/-- The own-key dispatch of `buildDatalogQuery`: the ten templates of the
`queries` object literal followed by the custom-or-pages fallback chain
(every catalog template is a non-empty, truthy string, an empty
`params.custom` is falsy, and `Date.now()` is the explicit `now`
parameter).  The bracket lookup in the source also reaches the inherited
members of `Object.prototype`; `buildDatalogQueryJs` below composes this
dispatch with those prototype-chain hits and is the complete embedding of
the function. -/
def buildDatalogQuery (queryType : String) (params : QueryParams) (now : Int) : String :=
  if queryType = "pages" then
    "[:find (pull ?p [*]) :where [?p :block/name]]"
  else if queryType = "pages_with_property" then
    "[:find (pull ?p [*]) :where [?p :block/properties ?props] [(get ?props :" ++
      jsInterp params.property ++ ") ?v] [(= ?v \"" ++ jsInterp params.value ++ "\")]]"
  else if queryType = "todos" then
    "[:find (pull ?b [*]) :where [?b :block/marker ?m] [(contains? #\x7b\"TODO\" \"DOING\" \"NOW\" \"LATER\" \"WAITING\"\x7d ?m)]]"
  else if queryType = "blocks_with_text" then
    "[:find (pull ?b [*]) :where [?b :block/content ?c] [(clojure.string/includes? ?c \"" ++
      jsInterp params.text ++ "\")]]"
  else if queryType = "pages_with_tag" then
    "[:find (pull ?p [*]) :where [?p :block/tags ?t] [?t :block/name \"" ++
      jsInterpLower params.tag ++ "\"]]"
  else if queryType = "blocks_with_tag" then
    "[:find (pull ?b [*]) :where [?b :block/refs ?r] [?r :block/name \"" ++
      jsInterpLower params.tag ++ "\"]]"
  else if queryType = "journals" then
    "[:find (pull ?p [*]) :where [?p :block/journal? true]]"
  else if queryType = "recent_pages" then
    "[:find (pull ?p [*]) :where [?p :block/updated-at ?t] [(> ?t " ++
      toString (now - daysOrSeven params.days * 86400000) ++ ")]]"
  else if queryType = "orphan_pages" then
    "[:find (pull ?p [*]) :where [?p :block/name] (not [?b :block/refs ?p])]"
  else if queryType = "backlinks" then
    "[:find (pull ?p [*]) :where [?b :block/refs ?target] [?target :block/name \"" ++
      jsInterpLower params.page ++ "\"] [?b :block/page ?p]]"
  else
    match params.custom with
    | some c => if c = "" then "[:find (pull ?p [*]) :where [?p :block/name]]" else c
    | none => "[:find (pull ?p [*]) :where [?p :block/name]]"

/-- The ten catalog keys of the query builder. -/
def catalogQueryTypes : List String :=
  ["pages", "pages_with_property", "todos", "blocks_with_text", "pages_with_tag",
   "blocks_with_tag", "journals", "recent_pages", "orphan_pages", "backlinks"]

/-- All `Object.prototype` member names (ECMA-262, Annex B included, as
implemented by Node).  Looking any of them up on a plain object literal
yields a truthy inherited value: a built-in function, or `Object.prototype`
itself for the `__proto__` accessor. -/
def objectProtoKeys : List String :=
  ["constructor", "toString", "toLocaleString", "valueOf", "hasOwnProperty",
   "isPrototypeOf", "propertyIsEnumerable", "__defineGetter__", "__defineSetter__",
   "__lookupGetter__", "__lookupSetter__", "__proto__"]

/-- What the `queries[queryType] || params.custom || queries["pages"]`
expression can produce: a query string, or a leaked truthy inherited
`Object.prototype` member (a non-string JavaScript value). -/
inductive QueryBuilt where
  | str (s : String)
  | inheritedMember (key : String)
deriving Repr, DecidableEq

/-- Complete embedding of `buildDatalogQuery`, including the JavaScript
prototype-chain semantics of the `queries[queryType]` lookup: an own key
yields its template string; an inherited `Object.prototype` member is
truthy and is returned as-is (a non-string value — the lookup is never
called here, so nothing throws); only a lookup miss falls through to
`params.custom` or the pages template. -/
def buildDatalogQueryJs (queryType : String) (params : QueryParams) (now : Int) :
    QueryBuilt :=
  if queryType ∈ catalogQueryTypes then
    QueryBuilt.str (buildDatalogQuery queryType params now)
  else if queryType ∈ objectProtoKeys then
    QueryBuilt.inheritedMember queryType
  else
    QueryBuilt.str (buildDatalogQuery queryType params now)

/-! ## Journal page names (`formatJournalDate`, src/index.ts lines 54-61)
and the `append_to_journal` write operation (lines 630-661) -/

/-- Embedding of `formatJournalDate`: lower-cased short month name, day of
month with its English ordinal suffix, and year.  The suffix lookup array
maps `day % 10` of 1, 2, 3 to "st", "nd", "rd" and the rest (and days
11-13) to "th". -/
def formatJournalDate (date : JSDate) : String :=
  monthShortLower date.getMonth ++ " " ++ toString date.getDate ++
    (if 11 ≤ date.getDate ∧ date.getDate ≤ 13 then "th"
     else if date.getDate % 10 = 1 then "st"
     else if date.getDate % 10 = 2 then "nd"
     else if date.getDate % 10 = 3 then "rd" else "th") ++
    ", " ++ toString date.getFullYear

/-- One remote call issued by a write handler. -/
inductive ApiCall where
  | getPage (name : String)
  | createPage (name : String) (journal : Bool)
  | appendBlockInPage (pageName : String) (content : String)
deriving Repr, DecidableEq

/-- A write handler outcome: the remote calls issued, in order, and the
returned text. -/
structure WriteResult where
  calls : List ApiCall
  text : String
deriving Repr, DecidableEq

/-- The non-blank lines of the content: split on newline, keep lines whose
trimmed form is truthy. -/
def contentLines (content : String) : List String :=
  (splitOnChar '\n' content).filter (fun l => trimJs l ≠ "")

/-- Embedding of the `append_to_journal` arm of `logseq_write`.
`parseDate` abstracts the `new Date(target)` string parser used for targets
other than "today"/"yesterday" (`none` models an invalid date);
`pageExists` is the remote `getPage` answer; the page, when created, is
created with property `journal? = true`. -/
def logseqWriteAppendToJournal (parseDate : String → Option JSDate)
    (target : String) (content : Option String) (today : JSDate)
    (pageExists : Bool) : WriteResult :=
  match content with
  | none => { calls := [], text := "Error: content is required for append_to_journal" }
  | some c =>
      let journalPageName :=
        if target = "today" then formatJournalDate today
        else if target = "yesterday" then
          formatJournalDate (today.setDate (today.getDate - 1))
        else
          match parseDate target with
          | some d => formatJournalDate d
          | none => target
      let lines := contentLines c
      { calls := [ApiCall.getPage journalPageName] ++
          (if pageExists then [] else [ApiCall.createPage journalPageName true]) ++
          lines.map (fun l => ApiCall.appendBlockInPage journalPageName l),
        text := "Added " ++ toString lines.length ++ " block(s) to journal \"" ++
          journalPageName ++ "\"." }

/-! ## Result normalisation and the three output modes
(`logseq_query`, src/index.ts lines 294-324) -/

/-- The record fields the formatter inspects; an absent JavaScript field is
the empty string (absent and empty behave identically through every
truthiness test in the source).  `blockName` stands for the Datalog-style
field `block/name`, `blockContent` for `block/content`, etc.; `name`,
`originalName`, `content`, `marker` are the direct-API field names. -/
structure QItem where
  blockName : String := ""
  blockOriginalName : String := ""
  name : String := ""
  originalName : String := ""
  blockContent : String := ""
  content : String := ""
  blockMarker : String := ""
  marker : String := ""
deriving Repr, DecidableEq

/-- A raw result row: either a single-element tuple wrapping a record
(Datalog query shape) or a bare record (direct API shape). -/
inductive QueryResult where
  | wrapped (item : QItem)
  | bare (item : QItem)
deriving Repr, DecidableEq

/-- One level of tuple-unwrapping: the item is the first tuple element when
the row is a tuple, else the row itself. -/
def unwrapItem : QueryResult → QItem
  | .wrapped i => i
  | .bare i => i

/-- The `names` mode rendering of one result: first truthy field among
`block/name`, `block/original-name`, `name`, `originalName`, then a 50-char
content prefix, else the literal "Unknown". -/
def jsNameOf (r : QueryResult) : String :=
  if (unwrapItem r).blockName ≠ "" then (unwrapItem r).blockName
  else if (unwrapItem r).blockOriginalName ≠ "" then (unwrapItem r).blockOriginalName
  else if (unwrapItem r).name ≠ "" then (unwrapItem r).name
  else if (unwrapItem r).originalName ≠ "" then (unwrapItem r).originalName
  else if strTake 50 (unwrapItem r).content ≠ "" then strTake 50 (unwrapItem r).content
  else "Unknown"

/-- Output of the names mode: one rendered entry per result, joined by
newlines. -/
def formatNames (results : List QueryResult) : String :=
  joinWith "\n" (results.map jsNameOf)

/-- Spec-side reading of the `names` priority chain: the first non-empty
entry of a field list, with a default. -/
def firstNonEmpty : List String → String → String
  | [], dflt => dflt
  | s :: rest, dflt => if s ≠ "" then s else firstNonEmpty rest dflt

/-- Spec-side `names` rendering of a record, stated with `firstNonEmpty`
over the priority-ordered field list. -/
def specNamePriority (i : QItem) : String :=
  firstNonEmpty [i.blockName, i.blockOriginalName, i.name, i.originalName,
    strTake 50 i.content] "Unknown"

/-- Name fallback chain of the summary mode: block/name, then
block/original-name, then name, then originalName, else empty. -/
def summaryName (i : QItem) : String :=
  if i.blockName ≠ "" then i.blockName
  else if i.blockOriginalName ≠ "" then i.blockOriginalName
  else if i.name ≠ "" then i.name
  else if i.originalName ≠ "" then i.originalName
  else ""

/-- Content fallback chain of the summary mode: block/content, then
content, else empty. -/
def summaryContent (i : QItem) : String :=
  if i.blockContent ≠ "" then i.blockContent else i.content

/-- Marker fallback chain of the summary mode: block/marker, then marker,
else empty. -/
def summaryMarker (i : QItem) : String :=
  if i.blockMarker ≠ "" then i.blockMarker else i.marker

/-- The summary rendering of one result at 0-based index `i`: a 1-based
index with a bracketed link when a name is present, a bracketed marker when
present, else an indexed 100-char content excerpt, then a newline. -/
def summaryEntry (i : Nat) (r : QueryResult) : String :=
  (if summaryName (unwrapItem r) ≠ "" then
      toString (i + 1) ++ ". [[" ++ summaryName (unwrapItem r) ++ "]]"
   else "") ++
  (if summaryMarker (unwrapItem r) ≠ "" then " [" ++ summaryMarker (unwrapItem r) ++ "]"
   else "") ++
  (if summaryContent (unwrapItem r) ≠ "" ∧ summaryName (unwrapItem r) = "" then
      toString (i + 1) ++ ". " ++ strTake 100 (summaryContent (unwrapItem r)) ++ "..."
   else "") ++ "\n"

/-- The `forEach` accumulation over the first twenty results. -/
def summaryLoop : List QueryResult → Nat → String
  | [], _ => ""
  | r :: rest, i => summaryEntry i r ++ summaryLoop rest (i + 1)

/-- Output of the summary mode: header, at most twenty rendered entries,
and a more-results trailer when results were cut off. -/
def formatSummary (results : List QueryResult) : String :=
  "Found " ++ toString results.length ++ " results:\n\n" ++
    summaryLoop (results.take 20) 0 ++
    (if 20 < results.length then
      "\n... and " ++ toString (results.length - 20) ++ " more results"
     else "")

/-! ## API client error classification (`callLogseqApi`, src/index.ts
lines 27-52) and the query handler boundary (lines 193-329) -/

/-- The relevant parts of the HTTP response the remote returns. -/
structure HttpResponse where
  ok : Bool
  status : Int
  statusText : String
deriving Repr, DecidableEq

/-- The 401 message text, up to the configured API URL appended at its
end. -/
def authErrorPrefix : String :=
  "Logseq API authentication failed (401 Unauthorized). Please verify:\n1. The HTTP API is enabled in Logseq (Settings > Features > HTTP APIs Server)\n2. Your token matches the one in Logseq\x27s \"Authorization token\" setting\n3. Logseq is running and accessible at "

/-- Embedding of `callLogseqApi`: a non-ok response raises (models the
thrown `Error` as `Except.error`), classifying 401 specially; an ok
response yields the parsed body. -/
def callLogseqApi {α : Type} (apiUrl : String) (resp : HttpResponse) (body : α) :
    Except String α :=
  if resp.ok then Except.ok body
  else if resp.status = 401 then Except.error (authErrorPrefix ++ apiUrl)
  else Except.error ("Logseq API error: " ++ toString resp.status ++ " " ++ resp.statusText)

/-- The `logseq_query` handler boundary: the whole body runs inside
`try/catch`, so a raised error from the first remote call becomes the text
`Query error: <message>`, and a successful call is handed to the rest of
the handler (`handleOk`).  The handler always returns a text. -/
def logseqQueryHandlerText (apiUrl : String) (resp : HttpResponse)
    (rows : List QueryResult) (handleOk : List QueryResult → String) : String :=
  match callLogseqApi apiUrl resp rows with
  | Except.ok results => handleOk results
  | Except.error msg => "Query error: " ++ msg

/-! ## The limit filter of `logseq_query` (src/index.ts lines 294-297) -/

/-- JavaScript `array.slice(0, endIdx)` (a negative end index counts from
the end of the array). -/
def jsSliceFromZero {α : Type} (endIdx : Int) (l : List α) : List α :=
  if 0 ≤ endIdx then l.take endIdx.toNat
  else l.take (l.length - (-endIdx).toNat)

/-- The limit filter: when the limit is truthy (present and non-zero) and
the result count exceeds it, slice the results down to it. -/
def applyLimit {α : Type} : Option Int → List α → List α
  | none, l => l
  | some lim, l => if lim ≠ 0 ∧ (lim : Int) < l.length then jsSliceFromZero lim l else l

/-- The datalog-mode tail of the `logseq_query` handler: the raw rows
returned by the query are passed through the limit filter and then handed
to the selected output formatter. -/
def logseqQueryDatalogRun (rawRows : List QueryResult) (filtersLimit : Option Int)
    (format : List QueryResult → String) : String :=
  format (applyLimit filtersLimit rawRows)

end Logseq

namespace Logseq

example : toDays 1970 0 1 = 0 := by decide

example : toDays 2025 2 14 = 20161 := by decide

example : JSDate.getDay ⟨2025, 2, 14, 0⟩ = 5 := by decide

example : toDays 2024 2 1 - toDays 2024 1 28 = 2 := by decide

example : toDays 1900 2 1 - toDays 1900 1 28 = 1 := by decide

example : toDays 2000 2 1 - toDays 2000 1 28 = 2 := by decide

example : toDays 2025 0 1 - toDays 2024 11 31 = 1 := by decide

/-! ## Helper lemmas about the date model -/

theorem toDays_sub_day (y m a b : Int) : toDays y m a - toDays y m b = a - b := by
  simp only [toDays, toDaysAux]
  ring

theorem getDay_bounds (d : JSDate) : 0 ≤ d.getDay ∧ d.getDay < 7 := by
  unfold JSDate.getDay
  omega

theorem toDays_prev_month_le (y m : Int) (h0 : 0 ≤ m) (h1 : m ≤ 11) :
    toDays y (m - 1) 1 ≤ toDays y m 0 := by
  interval_cases m
  all_goals simp only [toDays, toDaysAux, leapsBefore]
  all_goals norm_num [cumDaysBefore]
  all_goals split_ifs <;> omega

/-! ## C2 -/

/-- C2: for every recognized date-range phrase and every valid current
date, the resolver returns a range whose start instant is at most its end
instant, whose start is at 00:00:00.000 and end at 23:59:59.999 of their
respective days, and whose title is the one given by the table in spec
§4.2. -/
theorem parseDateRange_recognized_ranges
    (phrase : String) (today : JSDate) (hv : today.Valid)
    (hp : phrase ∈ recognizedDatePhrases) :
    instant (parseDateRange phrase today).start ≤ instant (parseDateRange phrase today).end_ ∧
    (parseDateRange phrase today).start.msOfDay = 0 ∧
    (parseDateRange phrase today).end_.msOfDay = 86399999 ∧
    (parseDateRange phrase today).title = specExpectedTitle phrase today := by
  obtain ⟨hm0, hm1, hd1, hd2, hms0, hms1⟩ := hv
  simp only [recognizedDatePhrases, List.mem_cons, List.not_mem_nil, or_false] at hp
  rcases hp with rfl | rfl | rfl | rfl | rfl | rfl | rfl | rfl
  · -- "today"
    have e : parseDateRange "today" today =
        ⟨⟨today.year, today.month, today.day, 0⟩,
         ⟨today.year, today.month, today.day, 86399999⟩, "Today\x27s Journal"⟩ := rfl
    rw [e]
    refine ⟨?_, rfl, rfl, rfl⟩
    simp only [instant]
    omega
  · -- "yesterday"
    have e : parseDateRange "yesterday" today =
        ⟨⟨today.year, today.month, today.day - 1, 0⟩,
         ⟨today.year, today.month, today.day - 1, 86399999⟩, "Yesterday\x27s Journal"⟩ := rfl
    rw [e]
    refine ⟨?_, rfl, rfl, rfl⟩
    simp only [instant]
    omega
  · -- "this week"
    have e : parseDateRange "this week" today =
        ⟨⟨today.year, today.month, today.day - today.getDay, 0⟩,
         ⟨today.year, today.month, today.day, 86399999⟩, "This Week\x27s Journal"⟩ := rfl
    rw [e]
    refine ⟨?_, rfl, rfl, rfl⟩
    have h1 := toDays_sub_day today.year today.month (today.day - today.getDay) today.day
    have h2 := getDay_bounds today
    simp only [instant]
    omega
  · -- "last week"
    have e : parseDateRange "last week" today =
        ⟨⟨today.year, today.month, today.day - today.getDay - 7, 0⟩,
         ⟨today.year, today.month, today.day - today.getDay - 1, 86399999⟩,
         "Last Week\x27s Journal"⟩ := rfl
    rw [e]
    refine ⟨?_, rfl, rfl, rfl⟩
    have h1 := toDays_sub_day today.year today.month
      (today.day - today.getDay - 7) (today.day - today.getDay - 1)
    simp only [instant]
    omega
  · -- "this month"
    have e : parseDateRange "this month" today =
        ⟨⟨today.year, today.month, 1, 0⟩,
         ⟨today.year, today.month, today.day, 86399999⟩,
         "Journal for " ++ monthLongName today.getMonth ++ " " ++
           toString today.getFullYear⟩ := rfl
    rw [e]
    refine ⟨?_, rfl, rfl, rfl⟩
    have h1 := toDays_sub_day today.year today.month 1 today.day
    simp only [instant]
    omega
  · -- "last month"
    have e : parseDateRange "last month" today =
        ⟨⟨today.year, today.month % 12 - 1, 1, 0⟩,
         ⟨today.year, today.month, 0, 86399999⟩,
         "Journal for " ++ monthLongName ((today.month % 12 - 1) % 12) ++ " " ++
           toString (today.year + (today.month % 12 - 1) / 12)⟩ := rfl
    have es : specExpectedTitle "last month" today =
        "Journal for " ++
          monthLongName (if today.getMonth = 0 then 11 else today.getMonth - 1) ++ " " ++
          toString (if today.getMonth = 0 then today.getFullYear - 1 else today.getFullYear) := rfl
    have hmm : today.month % 12 = today.month := by omega
    rw [e, es]
    refine ⟨?_, rfl, rfl, ?_⟩
    · have h1 := toDays_prev_month_le today.year today.month hm0 hm1
      simp only [instant]
      rw [hmm]
      omega
    · have harg : ((today.month - 1) % 12) =
          (if today.month = 0 then 11 else today.month - 1) := by
        rcases eq_or_ne today.month 0 with h | h
        · rw [h, if_pos rfl]; decide
        · rw [if_neg h]; omega
      have hyear : (today.year + (today.month - 1) / 12) =
          (if today.month = 0 then today.year + today.month / 12 - 1
           else today.year + today.month / 12) := by
        rcases eq_or_ne today.month 0 with h | h
        · rw [h, if_pos rfl]; omega
        · rw [if_neg h]; omega
      simp only [JSDate.getMonth, JSDate.getFullYear]
      rw [hmm, harg, hyear]
  · -- "last 7 days"
    have e : parseDateRange "last 7 days" today =
        ⟨⟨today.year, today.month, today.day - 7, 0⟩,
         ⟨today.year, today.month, today.day, 86399999⟩, "Last 7 Days Journal"⟩ := rfl
    rw [e]
    refine ⟨?_, rfl, rfl, rfl⟩
    have h1 := toDays_sub_day today.year today.month (today.day - 7) today.day
    simp only [instant]
    omega
  · -- "last 30 days"
    have e : parseDateRange "last 30 days" today =
        ⟨⟨today.year, today.month, today.day - 30, 0⟩,
         ⟨today.year, today.month, today.day, 86399999⟩, "Last 30 Days Journal"⟩ := rfl
    rw [e]
    refine ⟨?_, rfl, rfl, rfl⟩
    have h1 := toDays_sub_day today.year today.month (today.day - 30) today.day
    simp only [instant]
    omega

/-- Witness for C2 at the phrase "last month" and the concrete valid date
2025-01-15 01:00 (which exercises the December/year-decrement wrap). -/
theorem parseDateRange_recognized_ranges_witness :
    (JSDate.Valid ⟨2025, 0, 15, 3600000⟩) ∧
    ("last month" ∈ recognizedDatePhrases) ∧
    (instant (parseDateRange "last month" ⟨2025, 0, 15, 3600000⟩).start ≤
        instant (parseDateRange "last month" ⟨2025, 0, 15, 3600000⟩).end_ ∧
      (parseDateRange "last month" ⟨2025, 0, 15, 3600000⟩).start.msOfDay = 0 ∧
      (parseDateRange "last month" ⟨2025, 0, 15, 3600000⟩).end_.msOfDay = 86399999 ∧
      (parseDateRange "last month" ⟨2025, 0, 15, 3600000⟩).title =
        specExpectedTitle "last month" ⟨2025, 0, 15, 3600000⟩) :=
  ⟨by decide, by decide,
   parseDateRange_recognized_ranges "last month" ⟨2025, 0, 15, 3600000⟩ (by decide) (by decide)⟩

/-! ## C1 -/

/-- Helper: for every input phrase whose lowercased, trimmed form misses
every own key of the `ranges` record, the own-key dispatch returns exactly
the range it returns for "this week", with title "Weekly Journal". -/
theorem parseDateRange_unrecognized_is_this_week
    (dateRange : String) (today : JSDate)
    (h : trimJs (toLowerJs dateRange) ∉ recognizedDatePhrases) :
    parseDateRange dateRange today =
      { parseDateRange "this week" today with title := "Weekly Journal" } := by
  have hn : trimJs (toLowerJs dateRange) ≠ "today" ∧
      trimJs (toLowerJs dateRange) ≠ "yesterday" ∧
      trimJs (toLowerJs dateRange) ≠ "this week" ∧
      trimJs (toLowerJs dateRange) ≠ "last week" ∧
      trimJs (toLowerJs dateRange) ≠ "this month" ∧
      trimJs (toLowerJs dateRange) ≠ "last month" ∧
      trimJs (toLowerJs dateRange) ≠ "last 7 days" ∧
      trimJs (toLowerJs dateRange) ≠ "last 30 days" := by
    simpa [recognizedDatePhrases] using h
  obtain ⟨n1, n2, n3, n4, n5, n6, n7, n8⟩ := hn
  unfold parseDateRange
  rw [if_neg n1, if_neg n2, if_neg n3, if_neg n4, if_neg n5, if_neg n6, if_neg n7, if_neg n8]
  rfl

/-- C1 counterexample: "constructor" and "__proto__" are not recognized
phrases, yet the program does not take the this-week fallback for them —
the truthy inherited `Object.prototype` member is called instead.  For
"constructor" the call is a no-op and the resolver returns start = now
(not the most recent Sunday midnight) with an empty title, which differs
from the claimed this-week range with title "Weekly Journal"; for
"__proto__" the call throws, so the resolver fails. -/
theorem parseDateRangeJs_proto_counterexample :
    (trimJs (toLowerJs "constructor") ∉ recognizedDatePhrases) ∧
    (trimJs (toLowerJs "__proto__") ∉ recognizedDatePhrases) ∧
    parseDateRangeJs "constructor" ⟨2025, 2, 14, 43200000⟩ =
      Except.ok ⟨⟨2025, 2, 14, 43200000⟩, ⟨2025, 2, 14, 86399999⟩, ""⟩ ∧
    parseDateRangeJs "constructor" ⟨2025, 2, 14, 43200000⟩ ≠
      Except.ok { parseDateRange "this week" ⟨2025, 2, 14, 43200000⟩ with
                    title := "Weekly Journal" } ∧
    parseDateRangeJs "__proto__" ⟨2025, 2, 14, 43200000⟩ = Except.error "TypeError" := by
  refine ⟨by decide, by decide, by decide, by decide, by decide⟩

/-- C1 (amended): for every input phrase whose lowercased, trimmed form is
neither one of the eight recognized date-range phrases nor an inherited
`Object.prototype` member name, the resolver returns exactly the same
start/end range as for "this week", with title "Weekly Journal", and does
not fail.  (Phrases hitting the inherited members escape the fallback: the
no-op callable members leave the defaults — start = now, end of today,
empty title — and `__proto__` / `__defineGetter__` / `__defineSetter__`
make the call throw.) -/
theorem parseDateRangeJs_unrecognized_nonproto_is_this_week
    (dateRange : String) (today : JSDate)
    (h1 : trimJs (toLowerJs dateRange) ∉ recognizedDatePhrases)
    (h2 : trimJs (toLowerJs dateRange) ∉ objectProtoNoopKeys)
    (h3 : trimJs (toLowerJs dateRange) ∉ objectProtoThrowKeys) :
    parseDateRangeJs dateRange today =
      Except.ok { parseDateRange "this week" today with title := "Weekly Journal" } := by
  unfold parseDateRangeJs
  rw [if_neg h1, if_neg h2, if_neg h3]
  exact congrArg Except.ok (parseDateRange_unrecognized_is_this_week dateRange today h1)

/-- Witness for C1 (amended) at the concrete phrase "some random words"
and the concrete date 2025-03-14. -/
theorem parseDateRangeJs_unrecognized_nonproto_is_this_week_witness :
    (trimJs (toLowerJs "some random words") ∉ recognizedDatePhrases) ∧
    (trimJs (toLowerJs "some random words") ∉ objectProtoNoopKeys) ∧
    (trimJs (toLowerJs "some random words") ∉ objectProtoThrowKeys) ∧
    parseDateRangeJs "some random words" ⟨2025, 2, 14, 0⟩ =
      Except.ok { parseDateRange "this week" ⟨2025, 2, 14, 0⟩ with title := "Weekly Journal" } :=
  ⟨by decide, by decide, by decide,
   parseDateRangeJs_unrecognized_nonproto_is_this_week "some random words" ⟨2025, 2, 14, 0⟩
     (by decide) (by decide) (by decide)⟩

/-! ## C3 -/

theorem concatStrs_append (l1 l2 : List String) :
    concatStrs (l1 ++ l2) = concatStrs l1 ++ concatStrs l2 := by
  induction l1 with
  | nil => simp [concatStrs]
  | cons s rest ih => simp [concatStrs, ih, String.append_assoc]

/-- C3 counterexample: a node with empty content does not render its
non-empty children — the whole subtree is skipped (while a root-level
non-empty node does render). -/
theorem processBlocks_empty_parent_drops_children :
    processBlocks [Block.mk "" [Block.mk "x" []]] 0 = "" ∧
    processBlocks [Block.mk "x" []] 0 = "- x\n" := by
  refine ⟨?_, ?_⟩
  · simp [processBlocks]
  · simp only [processBlocks, repeatStr]
    decide

/-- C3 (amended): `processBlocks` renders, in depth-first pre-order
(children before later siblings), exactly one bullet line per node with
non-empty content, indented two spaces per depth level; a node with empty
content contributes no line and its entire subtree (children included) is
skipped. -/
theorem processBlocks_renders_flattened (bs : List Block) (n : Nat) :
    processBlocks bs n =
      concatStrs ((flattenBlocks bs n).map
        (fun p => repeatStr "  " p.1 ++ "- " ++ p.2 ++ "\n")) := by
  induction bs, n using processBlocks.induct with
  | case1 n => simp [processBlocks, flattenBlocks, concatStrs]
  | case2 c cs rest indent ih1 ih2 =>
      rcases eq_or_ne c "" with hc | hc
      · subst hc
        simp only [processBlocks, flattenBlocks, if_neg (by simp : ¬("" : String) ≠ "")]
        simpa using ih2
      · have hite : (if 0 < cs.length then processBlocks cs (indent + 1) else "") =
            processBlocks cs (indent + 1) := by
          cases cs with
          | nil => simp [processBlocks]
          | cons b bs2 => simp
        simp only [processBlocks, flattenBlocks, if_pos hc, List.map_append, List.map_cons,
          concatStrs_append, concatStrs]
        rw [hite, ih1, ih2]

/-! ## C4 -/

/-- Helper: for every `queryType` that misses every own key of the
`queries` record, with no `custom` entry, the own-key dispatch returns
exactly the string returned by the pages call, independently of the
current time. -/
theorem buildDatalogQuery_unknown_falls_back
    (queryType : String) (params : QueryParams) (now now2 : Int)
    (hq : queryType ∉ catalogQueryTypes) (hc : params.custom = none) :
    buildDatalogQuery queryType params now = buildDatalogQuery "pages" {} now2 := by
  have hn : queryType ≠ "pages" ∧ queryType ≠ "pages_with_property" ∧
      queryType ≠ "todos" ∧ queryType ≠ "blocks_with_text" ∧
      queryType ≠ "pages_with_tag" ∧ queryType ≠ "blocks_with_tag" ∧
      queryType ≠ "journals" ∧ queryType ≠ "recent_pages" ∧
      queryType ≠ "orphan_pages" ∧ queryType ≠ "backlinks" := by
    simpa [catalogQueryTypes] using hq
  obtain ⟨n1, n2, n3, n4, n5, n6, n7, n8, n9, n10⟩ := hn
  unfold buildDatalogQuery
  rw [if_neg n1, if_neg n2, if_neg n3, if_neg n4, if_neg n5, if_neg n6, if_neg n7,
    if_neg n8, if_neg n9, if_neg n10, hc]
  rfl

/-- C4 counterexample: "constructor" and "__proto__" are not catalog keys,
yet the lookup finds the truthy inherited `Object.prototype` member and
returns it — a non-string value — instead of falling through to the pages
template, so the claimed identity with the pages call fails. -/
theorem buildDatalogQueryJs_proto_counterexample :
    ("constructor" ∉ catalogQueryTypes) ∧
    ("__proto__" ∉ catalogQueryTypes) ∧
    buildDatalogQueryJs "constructor" {} 0 = QueryBuilt.inheritedMember "constructor" ∧
    buildDatalogQueryJs "constructor" {} 0 ≠
      QueryBuilt.str (buildDatalogQuery "pages" {} 0) ∧
    buildDatalogQueryJs "__proto__" {} 0 = QueryBuilt.inheritedMember "__proto__" := by
  refine ⟨by decide, by decide, by decide, by decide, by decide⟩

/-- C4 (amended): for every `queryType` that is neither one of the ten
catalog keys nor an inherited `Object.prototype` member name, and a
parameter bag without a `custom` entry, the query builder returns exactly
the string returned by the pages call — the list-all-pages template —
independently of the current time; the builder never throws for any
`queryType`, but for the twelve inherited member names it returns the
leaked truthy member (a non-string value) instead of the pages template. -/
theorem buildDatalogQueryJs_unknown_nonproto_falls_back
    (queryType : String) (params : QueryParams) (now now2 : Int)
    (hq : queryType ∉ catalogQueryTypes) (hp : queryType ∉ objectProtoKeys)
    (hc : params.custom = none) :
    buildDatalogQueryJs queryType params now =
      QueryBuilt.str (buildDatalogQuery "pages" {} now2) := by
  unfold buildDatalogQueryJs
  rw [if_neg hq, if_neg hp]
  exact congrArg QueryBuilt.str
    (buildDatalogQuery_unknown_falls_back queryType params now now2 hq hc)

/-- Witness for C4 (amended) at the concrete unknown key "mystery" (with
two distinct current-time values, showing the result does not depend on the
clock). -/
theorem buildDatalogQueryJs_unknown_nonproto_falls_back_witness :
    ("mystery" ∉ catalogQueryTypes) ∧ ("mystery" ∉ objectProtoKeys) ∧
    (QueryParams.custom {} = none) ∧
    buildDatalogQueryJs "mystery" {} 5 = QueryBuilt.str (buildDatalogQuery "pages" {} 9) :=
  ⟨by decide, by decide, rfl,
   buildDatalogQueryJs_unknown_nonproto_falls_back "mystery" {} 5 9
     (by decide) (by decide) rfl⟩

/-! ## C5 -/

/-- C5: `write(append_to_journal, "today", "buy milk\ncall mom")` against a
store with no page named for the current date issues, in order, the page
lookup, the creation of that page with the journal flag set, and exactly
one append call per non-blank line (two in total, in content order), and
reports that 2 blocks were added to the journal page whose name is the
current date as lower-cased short month, ordinal day, and year. -/
theorem write_append_to_journal_today_creates_then_appends
    (parseDate : String → Option JSDate) (today : JSDate) :
    logseqWriteAppendToJournal parseDate "today" (some "buy milk\ncall mom") today false =
      { calls := [ApiCall.getPage (formatJournalDate today),
                  ApiCall.createPage (formatJournalDate today) true,
                  ApiCall.appendBlockInPage (formatJournalDate today) "buy milk",
                  ApiCall.appendBlockInPage (formatJournalDate today) "call mom"],
        text := "Added 2 block(s) to journal \"" ++ formatJournalDate today ++ "\"." } ∧
    formatJournalDate today =
      monthShortLower today.getMonth ++ " " ++ toString today.getDate ++
        (if 11 ≤ today.getDate ∧ today.getDate ≤ 13 then "th"
         else if today.getDate % 10 = 1 then "st"
         else if today.getDate % 10 = 2 then "nd"
         else if today.getDate % 10 = 3 then "rd" else "th") ++ ", " ++
        toString today.getFullYear := by
  constructor
  · rfl
  · rfl

/-! ## C6 -/

theorem summaryLoop_eq_enum (l : List QueryResult) (i : Nat) :
    summaryLoop l i = concatStrs ((l.enumFrom i).map (fun p => summaryEntry p.1 p.2)) := by
  induction l generalizing i with
  | nil => rfl
  | cons r rest ih => simp [summaryLoop, List.enumFrom, concatStrs, ih]

/-- C6: the summary formatter renders exactly the first twenty entries
(each by `summaryEntry`: 1-based index, bracketed link name if present,
bracketed marker if present, else a 100-char excerpt); with 25 results it
renders exactly 20 entries and the trailer "... and 5 more results", and
with at most 20 results no trailer is emitted. -/
theorem formatSummary_caps_at_twenty (results : List QueryResult) :
    (results.length = 25 →
      formatSummary results =
        "Found 25 results:\n\n" ++
          concatStrs (((results.take 20).enumFrom 0).map (fun p => summaryEntry p.1 p.2)) ++
          "\n... and 5 more results" ∧
      ((results.take 20).enumFrom 0).length = 20) ∧
    (results.length ≤ 20 →
      formatSummary results =
        "Found " ++ toString results.length ++ " results:\n\n" ++
          concatStrs ((results.enumFrom 0).map (fun p => summaryEntry p.1 p.2))) := by
  constructor
  · intro h25
    constructor
    · unfold formatSummary
      rw [summaryLoop_eq_enum, h25]
      rw [if_pos (by omega : 20 < 25)]
      rw [show ("Found " ++ toString (25 : Nat) ++ " results:\n\n") = "Found 25 results:\n\n"
            by decide]
      rw [show ("\n... and " ++ toString ((25 : Nat) - 20) ++ " more results") =
            "\n... and 5 more results" by decide]
    · rw [List.enumFrom_length, List.length_take, h25]
      decide
  · intro hle
    unfold formatSummary
    rw [summaryLoop_eq_enum, if_neg (by omega : ¬ 20 < results.length),
      List.take_of_length_le hle, String.append_empty]

/-- Witness for C6 at a concrete list of 25 results (and, for the
no-trailer half, at a concrete list of 3 results). -/
theorem formatSummary_caps_at_twenty_witness :
    ((List.replicate 25 (QueryResult.bare { name := "p" })).length = 25) ∧
    ((List.replicate 3 (QueryResult.bare { name := "q" })).length ≤ 20) ∧
    (formatSummary (List.replicate 25 (QueryResult.bare { name := "p" })) =
        "Found 25 results:\n\n" ++
          concatStrs ((((List.replicate 25 (QueryResult.bare { name := "p" })).take 20).enumFrom 0).map
            (fun p => summaryEntry p.1 p.2)) ++
          "\n... and 5 more results" ∧
      (((List.replicate 25 (QueryResult.bare { name := "p" })).take 20).enumFrom 0).length = 20) ∧
    (formatSummary (List.replicate 3 (QueryResult.bare { name := "q" })) =
        "Found " ++ toString (List.replicate 3 (QueryResult.bare { name := "q" })).length ++
          " results:\n\n" ++
          concatStrs (((List.replicate 3 (QueryResult.bare { name := "q" })).enumFrom 0).map
            (fun p => summaryEntry p.1 p.2))) :=
  ⟨by decide, by decide,
   (formatSummary_caps_at_twenty (List.replicate 25 (QueryResult.bare { name := "p" }))).1
     (by decide),
   (formatSummary_caps_at_twenty (List.replicate 3 (QueryResult.bare { name := "q" }))).2
     (by decide)⟩

/-! ## C7 -/

/-- C7: in `names` mode a tuple-wrapped record and the same bare record
render to the same line, and that line is the first present field in the
priority order block/name, block/original-name, name, originalName,
50-char content prefix (with "Unknown" as final default). -/
theorem names_tuple_and_bare_agree (item : QItem) :
    jsNameOf (QueryResult.wrapped item) = jsNameOf (QueryResult.bare item) ∧
    jsNameOf (QueryResult.bare item) = specNamePriority item := by
  exact ⟨rfl, rfl⟩

/-! ## C8 -/

set_option maxRecDepth 10000 in
/-- C8: when the remote answers HTTP 401, the query handler returns a text
that begins with "Query error:", mentions the authorization token guidance,
and ends with the configured API URL (host/port); the failure is converted
to text at the handler boundary (the handler, a total function, returns a
text for every response). -/
theorem query_error_on_401 (apiUrl : String) (resp : HttpResponse)
    (rows : List QueryResult) (handleOk : List QueryResult → String)
    (hok : resp.ok = false) (hst : resp.status = 401) :
    ∃ rest,
      logseqQueryHandlerText apiUrl resp rows handleOk = "Query error: " ++ rest ∧
      (∃ u v, rest = u ++ "Authorization token" ++ v) ∧
      (∃ u, rest = u ++ apiUrl) := by
  refine ⟨authErrorPrefix ++ apiUrl, ?_, ?_, ⟨authErrorPrefix, rfl⟩⟩
  · unfold logseqQueryHandlerText callLogseqApi
    rw [hok, hst]
    rfl
  · refine ⟨"Logseq API authentication failed (401 Unauthorized). Please verify:\n1. The HTTP API is enabled in Logseq (Settings > Features > HTTP APIs Server)\n2. Your token matches the one in Logseq\x27s \"",
      "\" setting\n3. Logseq is running and accessible at " ++ apiUrl, ?_⟩
    rw [show authErrorPrefix =
          "Logseq API authentication failed (401 Unauthorized). Please verify:\n1. The HTTP API is enabled in Logseq (Settings > Features > HTTP APIs Server)\n2. Your token matches the one in Logseq\x27s \"" ++
            "Authorization token" ++
            "\" setting\n3. Logseq is running and accessible at " by decide]
    exact String.append_assoc _ _ _

/-- Witness for C8 at a concrete 401 response and the default API URL. -/
theorem query_error_on_401_witness :
    ((HttpResponse.mk false 401 "Unauthorized").ok = false) ∧
    ((HttpResponse.mk false 401 "Unauthorized").status = 401) ∧
    (∃ rest,
      logseqQueryHandlerText "http://127.0.0.1:12315/api"
          (HttpResponse.mk false 401 "Unauthorized") [] (fun _ => "") =
        "Query error: " ++ rest ∧
      (∃ u v, rest = u ++ "Authorization token" ++ v) ∧
      (∃ u, rest = u ++ "http://127.0.0.1:12315/api")) :=
  ⟨rfl, rfl,
   query_error_on_401 "http://127.0.0.1:12315/api" (HttpResponse.mk false 401 "Unauthorized")
     [] (fun _ => "") rfl rfl⟩

/-! ## C9 -/

/-- C9: a positive `filters.limit` smaller than the result count truncates
the results to the first `limit` rows (in their original order) before
formatting; in the 9-row, limit-5 datalog scenario the formatter receives
exactly the first 5 rows. -/
theorem query_limit_truncates (rawRows : List QueryResult) (lim : Int)
    (format : List QueryResult → String)
    (hpos : 0 < lim) (hlt : lim < (rawRows.length : Int)) :
    applyLimit (some lim) rawRows = rawRows.take lim.toNat ∧
    (rawRows.length = 9 → lim = 5 →
      logseqQueryDatalogRun rawRows (some lim) format = format (rawRows.take 5)) := by
  have happ : applyLimit (some lim) rawRows = rawRows.take lim.toNat := by
    show (if lim ≠ 0 ∧ (lim : Int) < (rawRows.length : Int) then jsSliceFromZero lim rawRows
          else rawRows) = rawRows.take lim.toNat
    rw [if_pos ⟨(by omega : lim ≠ 0), hlt⟩]
    show (if (0 : Int) ≤ lim then rawRows.take lim.toNat
          else rawRows.take (rawRows.length - (-lim).toNat)) = rawRows.take lim.toNat
    rw [if_pos (by omega : (0 : Int) ≤ lim)]
  refine ⟨happ, fun _ h5 => ?_⟩
  unfold logseqQueryDatalogRun
  rw [happ, h5]
  rfl

/-- Witness for C9 at a concrete 9-row result list with limit 5. -/
theorem query_limit_truncates_witness :
    ((0 : Int) < 5) ∧ ((5 : Int) < (List.replicate 9 (QueryResult.bare {})).length) ∧
    (applyLimit (some 5) (List.replicate 9 (QueryResult.bare {})) =
        (List.replicate 9 (QueryResult.bare {})).take (5 : Int).toNat ∧
      ((List.replicate 9 (QueryResult.bare {})).length = 9 → (5 : Int) = 5 →
        logseqQueryDatalogRun (List.replicate 9 (QueryResult.bare {})) (some 5)
            (fun l => toString l.length) =
          (fun l : List QueryResult => toString l.length)
            ((List.replicate 9 (QueryResult.bare {})).take 5))) :=
  ⟨by decide, by decide,
   query_limit_truncates (List.replicate 9 (QueryResult.bare {})) 5
     (fun l => toString l.length) (by decide) (by decide)⟩

/-! ## C10 -/

/-- C10 counterexample: a single result whose content excerpt contains a
newline renders as a names-mode output of two physical lines, so "exactly
one output line per input result for every result list" fails as stated. -/
theorem formatNames_multiline_entry_counterexample :
    formatNames [QueryResult.bare { content := "a\nb" }] = "a\nb" ∧
    (formatNames [QueryResult.bare { content := "a\nb" }]).data.count '\n' = 1 ∧
    ([QueryResult.bare { content := "a\nb" }] : List QueryResult).length = 1 := by
  refine ⟨by decide, by decide, rfl⟩

theorem count_joinWith_newline (l : List String)
    (hl : ∀ s ∈ l, s.data.count '\n' = 0) (hne : l ≠ []) :
    (joinWith "\n" l).data.count '\n' = l.length - 1 := by
  induction l with
  | nil => cases hne rfl
  | cons s rest ih =>
      cases rest with
      | nil => simpa [joinWith] using hl s (by simp)
      | cons s2 rest2 =>
          have h1 : s.data.count '\n' = 0 := hl s (by simp)
          have h2 := ih (fun x hx => hl x (by simp [hx])) (by simp)
          simp only [joinWith, String.data_append, List.count_append] at h2 ⊢
          simp [h1, h2]
          omega

/-- C10 (amended): names mode produces exactly one rendered entry per
input result — none is dropped, a record with no name fields and no
content rendering as the literal "Unknown" — and the entries are joined by
single newlines, so for a non-empty result list none of whose rendered
entries itself contains a newline, the output has exactly one line per
result. -/
theorem formatNames_one_entry_per_result (results : List QueryResult)
    (hne : results ≠ [])
    (hnl : ∀ r ∈ results, (jsNameOf r).data.count '\n' = 0) :
    (formatNames results).data.count '\n' = results.length - 1 ∧
    jsNameOf (QueryResult.bare {}) = "Unknown" := by
  refine ⟨?_, rfl⟩
  unfold formatNames
  rw [count_joinWith_newline (results.map jsNameOf) ?_ ?_]
  · rw [List.length_map]
  · intro s hs
    obtain ⟨r, hr, rfl⟩ := List.mem_map.mp hs
    exact hnl r hr
  · simpa using hne

/-- Witness for C10 (amended) at a concrete two-result list whose second
record has no name fields and no content. -/
theorem formatNames_one_entry_per_result_witness :
    (([QueryResult.bare { name := "a" }, QueryResult.bare {}] : List QueryResult) ≠ []) ∧
    (∀ r ∈ ([QueryResult.bare { name := "a" }, QueryResult.bare {}] : List QueryResult),
      (jsNameOf r).data.count '\n' = 0) ∧
    ((formatNames [QueryResult.bare { name := "a" }, QueryResult.bare {}]).data.count '\n' =
        ([QueryResult.bare { name := "a" }, QueryResult.bare {}] : List QueryResult).length - 1 ∧
      jsNameOf (QueryResult.bare {}) = "Unknown") :=
  ⟨by decide, by decide,
   formatNames_one_entry_per_result [QueryResult.bare { name := "a" }, QueryResult.bare {}]
     (by decide) (by decide)⟩

end Logseq
